import Mathlib

/-
Verification of the media delivery and playback engine of the
google-photos-slideshow repository.

The embedding below models, in order:
  * the disk image cache of `PhotosApiService` (`cacheImage`,
    `cleanupCacheIfNeeded`, `getCacheStats`);
  * the retrying fetch layer (`fetchWithRetry`);
  * the baseUrl refresh path (`PhotosApiService.refreshBaseUrls` and the
    renderer-side `refreshBaseUrls` of `Slideshow.tsx`);
  * the schedule check of `electron/main.ts` (`checkSchedule`);
  * the playback state machine of `Slideshow.tsx` (`transitionTo`,
    `handleVideoEnd`, `handleLoadTimeout`, `goToNext`, `goToPrevious`,
    the auto-advance timer, and the sort applied by `loadMediaItems`);
  * the picked-media merge of `AlbumList.tsx` (`fetchPickedMedia`).

Machine integers of the source are JavaScript numbers used as
non-negative integer counters and millisecond timestamps; they are
rendered as `Nat`.
-/

namespace PhotoSlide

/-- baseUrl validity window: 50 minutes in milliseconds
(`BASE_URL_TTL` in both `photosApi.ts` and `Slideshow.tsx`). -/
def BASE_URL_TTL : Nat := 50 * 60 * 1000

/-- Disk cache capacity: 500 MB (`MAX_CACHE_SIZE` in `photosApi.ts`). -/
def MAX_CACHE_SIZE : Nat := 500 * 1024 * 1024

/-- Maximum attempts of `fetchWithRetry` (`MAX_RETRIES`). -/
def MAX_RETRIES : Nat := 3

/-- Initial backoff delay of `fetchWithRetry` in ms (`INITIAL_DELAY`). -/
def INITIAL_DELAY : Nat := 1000

/-! ## Disk cache (`cacheImage` / `cleanupCacheIfNeeded` in photosApi.ts)

A cache directory is a list of files; each file records the key it was
stored under (`id.extension`), its size in bytes (`stat.size`) and its
modification time (`stat.mtimeMs`). -/

/-- One file of the `image-cache` directory. -/
structure CacheFile where
  key : String
  size : Nat
  mtime : Nat
deriving Repr, DecidableEq

/-- Total byte size of the directory, as recomputed by
`cleanupCacheIfNeeded` (and reported by `getCacheStats` as `diskSize`). -/
def totalSize (files : List CacheFile) : Nat := (files.map (fun f => f.size)).sum

/-- The sort `fileStats.sort((a, b) => a.mtime - b.mtime)`: ascending
modification time, stable. -/
def sortByMtime (files : List CacheFile) : List CacheFile :=
  List.insertionSort (fun a b => a.mtime ≤ b.mtime) files

/-- Eviction target `MAX_CACHE_SIZE * 0.7`, rendered over `Nat`
(exact whenever the capacity is divisible by 10, as are both the
source constant and the capacities used in the claims). -/
def cacheTarget (maxSize : Nat) : Nat := 7 * maxSize / 10

/-- The deletion loop of `cleanupCacheIfNeeded`: walk the mtime-sorted
file list, deleting files until the remaining total is at most the
target.  `remaining` tracks `totalSize - deletedSize`. -/
def evictOldest (target : Nat) : List CacheFile → Nat → List CacheFile
  | [], _ => []
  | f :: rest, remaining =>
    if remaining ≤ target then f :: rest
    else evictOldest target rest (remaining - f.size)

/-- `cleanupCacheIfNeeded`, parameterized by the capacity (the source
fixes it to `MAX_CACHE_SIZE`): if the current total exceeds the
capacity, delete oldest-mtime-first files down to 70% of capacity;
otherwise leave the directory untouched. -/
def cleanupCacheIfNeeded (maxSize : Nat) (files : List CacheFile) : List CacheFile :=
  let total := totalSize files
  if total > maxSize then
    evictOldest (cacheTarget maxSize) (sortByMtime files) total
  else files

/-- `cacheImage` (a `put`): if a file for the key already exists,
return unchanged; otherwise run `cleanupCacheIfNeeded` and then write
the new bytes, the file's mtime being the write time.  The check uses
the pre-existing directory only — the incoming size plays no part in
the eviction decision. -/
def cacheImage (maxSize : Nat) (files : List CacheFile)
    (key : String) (size : Nat) (now : Nat) : List CacheFile :=
  if files.any (fun f => f.key = key) then files
  else cleanupCacheIfNeeded maxSize files ++ [⟨key, size, now⟩]

/-- The four-put scenario of the spec: capacity 1000, entries A, B, C, D
of 300 bytes each, written in order with no intervening reads. -/
def c1ScenarioRun : List CacheFile :=
  cacheImage 1000
    (cacheImage 1000
      (cacheImage 1000
        (cacheImage 1000 [] "A" 300 0) "B" 300 1) "C" 300 2) "D" 300 3

/-! ## Retrying fetch (`fetchWithRetry` in photosApi.ts) -/

/-- What one `fetch` attempt produces: an HTTP response with a status
code, or a thrown transport-level error. -/
inductive AttemptOutcome where
  | resp (status : Nat)
  | exn
deriving Repr, DecidableEq

/-- How a `fetchWithRetry` invocation can fail: the final attempt threw
(`throw error`), or the loop ran out of attempts
(`throw new Error('Max retries exceeded')`). -/
inductive FetchErr where
  | transport
  | maxRetriesExceeded
deriving Repr, DecidableEq

instance {ε α : Type} [DecidableEq ε] [DecidableEq α] : DecidableEq (Except ε α) := fun x y =>
  match x, y with
  | .error a, .error b =>
    if h : a = b then .isTrue (by rw [h]) else .isFalse (fun hc => h (by injection hc))
  | .error _, .ok _ => .isFalse (fun hc => Except.noConfusion hc)
  | .ok _, .error _ => .isFalse (fun hc => Except.noConfusion hc)
  | .ok a, .ok b =>
    if h : a = b then .isTrue (by rw [h]) else .isFalse (fun hc => h (by injection hc))

/-- Observable trace of one `fetchWithRetry` invocation: how many
`fetch` calls were issued, which backoff waits were performed, and the
outcome (the returned response's status, or the thrown error). -/
structure FetchTrace where
  requests : Nat
  delays : List Nat
  result : Except FetchErr Nat
deriving Repr, DecidableEq

/-- `INITIAL_DELAY * Math.pow(2, i)`. -/
def backoffDelay (i : Nat) : Nat := INITIAL_DELAY * 2 ^ i

/-- The retry loop body.  `rem` is the number of loop iterations still
available including the current one (so `rem = retries - i`), `i` the
current attempt index, `delays` the waits performed so far.
Per attempt: a thrown fetch rethrows on the last iteration and
otherwise backs off and continues; a 429 response backs off and
continues; a 5xx response backs off and continues; any other response
is returned as-is. -/
def fetchGo (oracle : Nat → AttemptOutcome) : Nat → Nat → List Nat → FetchTrace
  | 0, i, delays => ⟨i, delays, .error .maxRetriesExceeded⟩
  | rem + 1, i, delays =>
    match oracle i with
    | .exn =>
      if rem = 0 then ⟨i + 1, delays, .error .transport⟩
      else fetchGo oracle rem (i + 1) (delays ++ [backoffDelay i])
    | .resp s =>
      if s = 429 then fetchGo oracle rem (i + 1) (delays ++ [backoffDelay i])
      else if 500 ≤ s then fetchGo oracle rem (i + 1) (delays ++ [backoffDelay i])
      else ⟨i + 1, delays, .ok s⟩

/-- `fetchWithRetry` with its default `retries = MAX_RETRIES`; the
environment is abstracted as an oracle giving the outcome of each
attempt. -/
def fetchWithRetry (oracle : Nat → AttemptOutcome) : FetchTrace :=
  fetchGo oracle MAX_RETRIES 0 []

/-! ## baseUrl refresh (`PhotosApiService.refreshBaseUrls` and the
renderer-side `refreshBaseUrls` of `Slideshow.tsx`) -/

/-- A cached media item as stored in `photoslide-cache`: its stable id,
its time-limited locator (`baseUrl`), and the locator's issuance
timestamp (`cachedAt`, milliseconds). -/
structure CachedMediaItem where
  id : String
  baseUrl : String
  cachedAt : Nat
deriving Repr, DecidableEq

/-- `urlMap.set(id, url)` on an association list: overwrite the entry
for the key if present, append otherwise. -/
def mapSet (m : List (String × String)) (k v : String) : List (String × String) :=
  if m.any (fun p => p.1 = k) then
    m.map (fun p => if p.1 = k then (k, v) else p)
  else m ++ [(k, v)]

/-- `urlMap.get(id)`. -/
def mapGet (m : List (String × String)) (k : String) : Option String :=
  (m.find? (fun p => p.1 = k)).map (fun p => p.2)

/-- The batching loop header `for (let i = 0; i < ids.length; i += 50)`
with `batch = ids.slice(i, i + 50)`: split the id list into chunks of
at most 50.  Structural recursion on a fuel initialized to the list
length (the loop runs at most that many times). -/
def chunkGo : Nat → List String → List (List String)
  | 0, _ => []
  | _ + 1, [] => []
  | fuel + 1, x :: rest => ((x :: rest).take 50) :: chunkGo fuel ((x :: rest).drop 50)

/-- The batches issued by `refreshBaseUrls` for a given id list. -/
def batchesOf (ids : List String) : List (List String) := chunkGo ids.length ids

/-- What one `mediaItems:batchGet` request produces: a thrown fetch
error, or a response whose `mediaItemResults` contribute the given
(id, baseUrl) pairs (possibly none, e.g. when the response carried an
error body instead). -/
inductive BatchOutcome where
  | thrown
  | results (pairs : List (String × String))
deriving Repr, DecidableEq

/-- Observable trace of one `PhotosApiService.refreshBaseUrls` call:
the batch requests actually issued, and either the accumulated
id-to-url map or the propagated exception. -/
structure RefreshRun where
  issued : List (List String)
  result : Except Unit (List (String × String))
deriving Repr, DecidableEq

/-- The batch loop of `PhotosApiService.refreshBaseUrls`: batches are
processed in order; a thrown fetch propagates immediately (no per-batch
try/catch), a returned response merges its pairs into the url map. -/
def runBatches (outcome : List String → BatchOutcome) :
    List (List String) → List (String × String) → List (List String) → RefreshRun
  | [], urlMap, issued => ⟨issued, .ok urlMap⟩
  | b :: rest, urlMap, issued =>
    match outcome b with
    | .thrown => ⟨issued ++ [b], .error ()⟩
    | .results pairs =>
      runBatches outcome rest (pairs.foldl (fun m p => mapSet m p.1 p.2) urlMap) (issued ++ [b])

/-- `PhotosApiService.refreshBaseUrls(mediaItemIds)` up to the point
where the url map is complete (or an exception escapes). -/
def refreshBaseUrlsRun (outcome : List String → BatchOutcome) (ids : List String) : RefreshRun :=
  runBatches outcome (batchesOf ids) [] []

/-- The per-item update `cachedItems.map(...)` applied to the store
after a successful `refreshBaseUrls`: an item found in the url map gets
the new locator and a fresh issuance timestamp, any other item is kept
untouched. -/
def refreshItemUpdate (urlMap : List (String × String)) (now : Nat)
    (item : CachedMediaItem) : CachedMediaItem :=
  match mapGet urlMap item.id with
  | some u => { item with baseUrl := u, cachedAt := now }
  | none => item

/-- `PhotosApiService.refreshBaseUrls` end to end: on success the store
is rewritten through `refreshItemUpdate`; on a thrown batch the
exception propagates and the store is left as it was. -/
def refreshAndUpdate (outcome : List String → BatchOutcome) (ids : List String)
    (now : Nat) (items : List CachedMediaItem) : List CachedMediaItem × RefreshRun :=
  let run := refreshBaseUrlsRun outcome ids
  match run.result with
  | .ok m => (items.map (refreshItemUpdate m now), run)
  | .error _ => (items, run)

/-- The id list assembled by the renderer-side `refreshBaseUrls` of
`Slideshow.tsx`: `items.map(item => item.id)` — every item of the
sequence, with no per-item staleness check. -/
def slideshowRefreshIds (items : List CachedMediaItem) : List String :=
  items.map (fun item => item.id)

/-! ## Schedule check (`checkSchedule` in electron/main.ts) -/

/-- The mutable module state read and written by `checkSchedule`. -/
structure ScheduleCheckState where
  lastScheduleState : Option Bool
  isSlideshowRunning : Bool
deriving Repr, DecidableEq

/-- `settings.schedule.timeGrid[dayIndex]?.[hourIndex] ?? false`. -/
def gridLookup (timeGrid : List (List Bool)) (dayIndex hourIndex : Nat) : Bool :=
  (((timeGrid.get? dayIndex).map (fun row => (row.get? hourIndex).getD false)).getD false)

/-- One `checkSchedule` run (the main window is assumed present).
Returns the new module state and the payloads of the
`schedule:state-changed` events sent, in order.  Disabled schedule:
reset `lastScheduleState` and send nothing.  Otherwise: first, if the
slideshow is running and the grid says not to play, send `false`;
second, if the grid value differs from `lastScheduleState`, record it
and send it. -/
def checkSchedule (enabled : Bool) (timeGrid : List (List Bool))
    (dayIndex hourIndex : Nat) (s : ScheduleCheckState) : ScheduleCheckState × List Bool :=
  if !enabled then ({ s with lastScheduleState := none }, [])
  else
    let shouldPlay := gridLookup timeGrid dayIndex hourIndex
    let stopEvents : List Bool :=
      if s.isSlideshowRunning ∧ shouldPlay = false then [false] else []
    if some shouldPlay ≠ s.lastScheduleState then
      ({ s with lastScheduleState := some shouldPlay }, stopEvents ++ [shouldPlay])
    else (s, stopEvents)

/-- The JS weekday conversion of `checkSchedule`:
`getDay()` gives 0 (Sunday) to 6 (Saturday); the grid is indexed
0 (Monday) to 6 (Sunday). -/
def jsDayToGridIndex (jsDay : Nat) : Nat := if jsDay = 0 then 6 else jsDay - 1

/-! ## Playback state machine (`Slideshow.tsx`) -/

/-- A media item as held by the slideshow page.  `creationTime` is the
parsed timestamp in milliseconds. -/
structure MediaItem where
  id : String
  mimeType : String
  creationTime : Nat
deriving Repr, DecidableEq

/-- `item.mimeType?.startsWith('video/')`. -/
def isVideoItem (item : MediaItem) : Bool := item.mimeType.startsWith "video/"

/-- The React state of the slideshow page that the advance logic reads
and writes.  A transition in flight is represented by `isTransitioning`
together with the index scheduled to become current
(`pendingIndex`, the argument of the inner `setCurrentIndex`). -/
structure SlideshowState where
  mediaItems : List MediaItem
  currentIndex : Nat
  previousIndex : Option Nat
  pendingIndex : Option Nat
  isTransitioning : Bool
  isPlaying : Bool
deriving Repr, DecidableEq

/-- `transitionTo(newIndex)`: dropped outright while a transition is in
flight or when the sequence is empty; otherwise marks the transition
started, remembers the previous index, and schedules the index
change. -/
def transitionTo (s : SlideshowState) (newIndex : Nat) : SlideshowState :=
  if s.isTransitioning ∨ s.mediaItems.length = 0 then s
  else { s with
    isTransitioning := true
    previousIndex := some s.currentIndex
    pendingIndex := some newIndex }

/-- Completion of an in-flight transition (the nested `setTimeout`
bodies): the scheduled index becomes current, the previous index is
cleared, and the transitioning flag drops. -/
def settleTransition (s : SlideshowState) : SlideshowState :=
  match s.pendingIndex with
  | some n => { s with
      currentIndex := n
      previousIndex := none
      pendingIndex := none
      isTransitioning := false }
  | none => s

/-- `mediaItems[currentIndex]?.mimeType?.startsWith('video/')`. -/
def isCurrentVideo (s : SlideshowState) : Bool :=
  match s.mediaItems.get? s.currentIndex with
  | some item => isVideoItem item
  | none => false

/-- The advance triggers fed to the state machine. -/
inductive SlideshowEvent where
  | timerFire
  | videoEnd
  | loadTimeout
  | userNext
  | userPrev
deriving Repr, DecidableEq

/-- The event handlers of `Slideshow.tsx`, as guarded in the source:
the auto-advance interval exists only while playing, non-empty,
not transitioning and the current item is not a video; `handleVideoEnd`
requires playing and non-empty; `handleLoadTimeout` requires only
non-empty; `goToNext`/`goToPrevious` call `transitionTo` directly.
JS `(i - 1 + L) % L` is rendered as `(i + L - 1) % L`, equal for the
non-negative `i` the state ever holds. -/
def handleEvent (s : SlideshowState) : SlideshowEvent → SlideshowState
  | .timerFire =>
    if s.isPlaying ∧ s.mediaItems.length ≠ 0 ∧ s.isTransitioning = false ∧
        isCurrentVideo s = false then
      transitionTo s ((s.currentIndex + 1) % s.mediaItems.length)
    else s
  | .videoEnd =>
    if s.isPlaying ∧ s.mediaItems.length ≠ 0 then
      transitionTo s ((s.currentIndex + 1) % s.mediaItems.length)
    else s
  | .loadTimeout =>
    if s.mediaItems.length ≠ 0 then
      transitionTo s ((s.currentIndex + 1) % s.mediaItems.length)
    else s
  | .userNext => transitionTo s ((s.currentIndex + 1) % s.mediaItems.length)
  | .userPrev => transitionTo s ((s.currentIndex + s.mediaItems.length - 1) % s.mediaItems.length)

/-- A completed `next()`: the trigger followed by the transition
running to completion. -/
def completedNext (s : SlideshowState) : SlideshowState :=
  settleTransition (handleEvent s .userNext)

/-- The sort orders recognized by `loadMediaItems` (`photoOrder`);
`unsorted` is the fall-through default branch. -/
inductive PhotoOrder where
  | latest
  | oldest
  | random
  | unsorted
deriving Repr, DecidableEq

/-- The sort applied by `loadMediaItems`: `latest` sorts by creation
time descending, `oldest` ascending, `random` applies the
`Math.random() - 0.5` comparator shuffle — environment-dependent, so
abstracted as a permutation-producing function supplied as a
parameter — and the default branch keeps the stored order. -/
def sortItems (order : PhotoOrder) (shuffle : List MediaItem → List MediaItem)
    (items : List MediaItem) : List MediaItem :=
  match order with
  | .latest => List.insertionSort (fun a b => b.creationTime ≤ a.creationTime) items
  | .oldest => List.insertionSort (fun a b => a.creationTime ≤ b.creationTime) items
  | .random => shuffle items
  | .unsorted => items

/-- The state right after `loadMediaItems` succeeded: sorted sequence,
cursor at `start` (0 in the source; kept general for the wrap-around
property), no transition in flight. -/
def loadedState (items : List MediaItem) (start : Nat) (playing : Bool) : SlideshowState :=
  ⟨items, start, none, none, false, playing⟩

/-! ## Picked-media merge (`fetchPickedMedia` in AlbumList.tsx) -/

/-- A picked media item as held by the album list page. -/
structure PickedItem where
  id : String
  baseUrl : String
  mimeType : String
  filename : String
deriving Repr, DecidableEq

/-- The merge of `fetchPickedMedia`: drop every newly picked item whose
id already occurs in the existing list, append the remaining ones after
the existing items. -/
def mergePickedMedia (existing newItems : List PickedItem) : List PickedItem :=
  let existingIds := existing.map (fun item => item.id)
  existing ++ newItems.filter (fun item => !existingIds.contains item.id)

/-! ## Concrete scenario data used by counterexamples and witnesses -/

/-- The 51-id list of the batch-failure scenario (two batches). -/
def c3Ids : List String := List.replicate 51 "x"

/-- A sample image item. -/
def demoItem : MediaItem := ⟨"item1", "image/jpeg", 0⟩

/-- A one-item slideshow, showing, playing, no transition in flight. -/
def demoShowing : SlideshowState := ⟨[demoItem], 0, none, none, false, true⟩

/-- The same slideshow while a transition is in flight. -/
def demoTransitioning : SlideshowState := ⟨[demoItem], 0, some 0, some 0, true, true⟩

/-- The same slideshow paused by the user, no transition in flight. -/
def demoPaused : SlideshowState := ⟨[demoItem], 0, none, none, false, false⟩

/-- Sample picked-media lists for the merge scenario. -/
def demoExisting : List PickedItem := [⟨"a", "u1", "image/jpeg", "a.jpg"⟩]

def demoNew : List PickedItem :=
  [⟨"a", "u2", "image/jpeg", "a2.jpg"⟩, ⟨"b", "u3", "image/jpeg", "b.jpg"⟩]

/-! # Theorems -/

/-! ## Cache helper lemmas -/

theorem totalSize_cons (f : CacheFile) (rest : List CacheFile) :
    totalSize (f :: rest) = f.size + totalSize rest := by
  simp [totalSize]

theorem evictOldest_total_le (target : Nat) (l : List CacheFile) :
    totalSize (evictOldest target l (totalSize l)) ≤ target := by
  induction l with
  | nil => simp [evictOldest, totalSize]
  | cons f rest ih =>
    rw [evictOldest]
    by_cases h : totalSize (f :: rest) ≤ target
    · simp [h]
    · have hsub : totalSize (f :: rest) - f.size = totalSize rest := by
        rw [totalSize_cons]; omega
      simpa [h, hsub] using ih

theorem evictOldest_suffix (target : Nat) :
    ∀ (l : List CacheFile) (remaining : Nat), evictOldest target l remaining <:+ l := by
  intro l
  induction l with
  | nil => intro remaining; simp [evictOldest]
  | cons f rest ih =>
    intro remaining
    rw [evictOldest]
    by_cases h : remaining ≤ target
    · simp [h]
    · simp only [h, if_false]
      exact (ih (remaining - f.size)).trans (List.suffix_cons f rest)

theorem totalSize_sortByMtime (files : List CacheFile) :
    totalSize (sortByMtime files) = totalSize files := by
  have hperm : List.Perm (sortByMtime files) files := by
    unfold sortByMtime
    exact List.perm_insertionSort _ files
  exact List.Perm.sum_eq (hperm.map (fun f => f.size))

/-- C1, amended.  Eviction happens only at the start of a `put` whose
pre-existing directory already exceeds the capacity; it then removes
oldest-mtime-first files until the remaining total is at most 70% of
capacity, retaining a suffix of the mtime-sorted directory (the most
recently written files).  The totals observed after a `put` may
therefore exceed the capacity, as the four-put scenario shows: after
putting A, B, C, D (300 bytes each, capacity 1000) all four entries
remain and the total is 1200; the put of a fifth entry E then evicts A
and B, oldest first, leaving C, D, E with total 900. -/
theorem cache_eviction_amended (maxSize : Nat) (files : List CacheFile)
    (h : maxSize < totalSize files) :
    totalSize (cleanupCacheIfNeeded maxSize files) ≤ cacheTarget maxSize ∧
    cleanupCacheIfNeeded maxSize files <:+ sortByMtime files ∧
    (cacheImage 1000 c1ScenarioRun "E" 300 4).map (fun f => f.key) = ["C", "D", "E"] ∧
    totalSize (cacheImage 1000 c1ScenarioRun "E" 300 4) = 900 := by
  refine ⟨?_, ?_, by decide, by decide⟩
  · unfold cleanupCacheIfNeeded
    simp only [h, gt_iff_lt, if_pos]
    calc totalSize (evictOldest (cacheTarget maxSize) (sortByMtime files) (totalSize files))
        = totalSize (evictOldest (cacheTarget maxSize) (sortByMtime files)
            (totalSize (sortByMtime files))) := by rw [totalSize_sortByMtime]
      _ ≤ cacheTarget maxSize := evictOldest_total_le _ _
  · unfold cleanupCacheIfNeeded
    simp only [h, gt_iff_lt, if_pos]
    exact evictOldest_suffix _ _ _

/-- C1 amended, witnessed on the scenario directory (capacity 1000,
total 1200 > 1000). -/
theorem cache_eviction_witness :
    totalSize (cleanupCacheIfNeeded 1000 c1ScenarioRun) ≤ cacheTarget 1000 ∧
    cleanupCacheIfNeeded 1000 c1ScenarioRun <:+ sortByMtime c1ScenarioRun ∧
    (cacheImage 1000 c1ScenarioRun "E" 300 4).map (fun f => f.key) = ["C", "D", "E"] ∧
    totalSize (cacheImage 1000 c1ScenarioRun "E" 300 4) = 900 :=
  cache_eviction_amended 1000 c1ScenarioRun (by decide)

/-- C1, counterexample to the claim as stated: in the four-put scenario
(capacity 1000, low-water 700, entries A, B, C, D of 300 bytes) no
eviction ever fires, because each `put` checks only the pre-existing
total (900 at D's put, not above 1000).  After D's put the directory
still holds A and the total is 1200, contradicting both the claimed
`totalBytes ≤ 700`-after-eviction behavior and the claimed general
`stats().totalBytes ≤ C` invariant. -/
theorem cache_eviction_counterexample :
    totalSize c1ScenarioRun = 1200 ∧
    c1ScenarioRun.map (fun f => f.key) = ["A", "B", "C", "D"] := by
  decide

/-! ## Retrying fetch -/

/-- C4, amended.  On HTTP 429 the fetcher waits
`INITIAL_DELAY * 2 ^ attempt` milliseconds and retries, but the
rate-limited attempt does consume one of the 3 attempts of the loop:
three consecutive 429 responses exhaust the budget and the call throws
`Max retries exceeded` after exactly 3 requests and backoffs of 1000,
2000 and 4000 ms, while a 429 followed by a 200 succeeds on the second
request after a single 1000 ms wait. -/
theorem fetch_rate_limit_amended (oracle : Nat → AttemptOutcome) :
    ((∀ j, j < MAX_RETRIES → oracle j = .resp 429) →
      fetchWithRetry oracle = ⟨3, [1000, 2000, 4000], .error .maxRetriesExceeded⟩) ∧
    (oracle 0 = .resp 429 → oracle 1 = .resp 200 →
      fetchWithRetry oracle = ⟨2, [1000], .ok 200⟩) := by
  constructor
  · intro h
    have h0 := h 0 (by simp [MAX_RETRIES])
    have h1 := h 1 (by simp [MAX_RETRIES])
    have h2 := h 2 (by simp [MAX_RETRIES])
    simp [fetchWithRetry, MAX_RETRIES, fetchGo, h0, h1, h2, backoffDelay, INITIAL_DELAY]
  · intro h0 h1
    simp [fetchWithRetry, MAX_RETRIES, fetchGo, h0, h1, backoffDelay, INITIAL_DELAY]

/-- C4 amended, witnessed on the 429-then-200 oracle. -/
theorem fetch_rate_limit_witness :
    fetchWithRetry (fun j => if j = 0 then .resp 429 else .resp 200) =
      ⟨2, [1000], .ok 200⟩ :=
  (fetch_rate_limit_amended (fun j => if j = 0 then .resp 429 else .resp 200)).2 rfl rfl

/-- C4, counterexample to the claim as stated: a run whose attempts are
all rate-limited (HTTP 429 every time) fails with `Max retries
exceeded` after exactly `MAX_RETRIES = 3` requests — the rate-limited
attempts did consume the fixed maximum of 3 attempts, whereas the claim
says a rate-limited attempt consumes none of them (which would leave
the fetcher retrying past 3 requests). -/
theorem fetch_rate_limit_counterexample :
    fetchWithRetry (fun _ => .resp 429) =
      ⟨MAX_RETRIES, [1000, 2000, 4000], .error .maxRetriesExceeded⟩ := by
  decide

/-- C5, amended.  A response whose status is neither 429 nor 5xx is
returned to the caller as-is on the first attempt — including non-2xx
statuses such as 404, which are not converted into an error — while a
transport-level failure still present at the final attempt does
propagate as a thrown error (after backing off 1000 and 2000 ms between
the three attempts). -/
theorem fetch_failure_amended (oracle : Nat → AttemptOutcome) (s : Nat) :
    (oracle 0 = .resp s → s ≠ 429 → s < 500 →
      fetchWithRetry oracle = ⟨1, [], .ok s⟩) ∧
    ((∀ j, j < MAX_RETRIES → oracle j = .exn) →
      fetchWithRetry oracle = ⟨3, [1000, 2000], .error .transport⟩) := by
  constructor
  · intro h0 h429 h5xx
    have hlt : ¬ 500 ≤ s := by omega
    simp [fetchWithRetry, MAX_RETRIES, fetchGo, h0, h429, hlt]
  · intro h
    have h0 := h 0 (by simp [MAX_RETRIES])
    have h1 := h 1 (by simp [MAX_RETRIES])
    have h2 := h 2 (by simp [MAX_RETRIES])
    simp [fetchWithRetry, MAX_RETRIES, fetchGo, h0, h1, h2, backoffDelay, INITIAL_DELAY]

/-- C5 amended, witnessed on the always-404 and always-throwing
oracles. -/
theorem fetch_failure_witness :
    fetchWithRetry (fun _ => .resp 410) = ⟨1, [], .ok 410⟩ ∧
    fetchWithRetry (fun _ => .exn) = ⟨3, [1000, 2000], .error .transport⟩ :=
  ⟨(fetch_failure_amended (fun _ => .resp 410) 410).1 rfl (by decide) (by decide),
   (fetch_failure_amended (fun _ => .exn) 0).2 (fun j _ => rfl)⟩

/-- C5, counterexample to the claim as stated: a 404 response (non-2xx,
neither 429 nor 5xx) is returned by `fetchWithRetry` as a normal
response (`.ok 404`), not converted into a thrown `UpstreamError` as
the claim requires. -/
theorem fetch_failure_counterexample :
    fetchWithRetry (fun _ => .resp 404) = ⟨1, [], .ok 404⟩ := by
  decide

/-! ## baseUrl refresh helper lemmas -/

theorem chunkGo_flatten : ∀ (fuel : Nat) (ids : List String), ids.length ≤ fuel →
    (chunkGo fuel ids).flatten = ids := by
  intro fuel
  induction fuel with
  | zero =>
    intro ids h
    have : ids = [] := List.length_eq_zero.mp (Nat.le_zero.mp h)
    simp [this, chunkGo]
  | succ fuel ih =>
    intro ids h
    match ids with
    | [] => simp [chunkGo]
    | x :: rest =>
      have hlen : ((x :: rest).drop 50).length ≤ fuel := by
        simp only [List.length_drop, List.length_cons]
        simp only [List.length_cons] at h
        omega
      simp only [chunkGo, List.flatten]
      rw [ih _ hlen]
      exact List.take_append_drop 50 (x :: rest)

theorem batchesOf_flatten (ids : List String) : (batchesOf ids).flatten = ids :=
  chunkGo_flatten ids.length ids (Nat.le_refl _)

theorem runBatches_ok (outcome : List String → BatchOutcome) :
    ∀ (bs : List (List String)) (m : List (String × String)) (acc : List (List String)),
    (∀ b ∈ bs, outcome b ≠ .thrown) →
    (runBatches outcome bs m acc).issued = acc ++ bs ∧
    ∃ m2, (runBatches outcome bs m acc).result = .ok m2 := by
  intro bs
  induction bs with
  | nil => intro m acc _; simp [runBatches]
  | cons b rest ih =>
    intro m acc h
    have hb : outcome b ≠ .thrown := h b (List.mem_cons_self b rest)
    match hob : outcome b with
    | .thrown => exact absurd hob hb
    | .results pairs =>
      have hrest : ∀ x ∈ rest, outcome x ≠ .thrown :=
        fun x hx => h x (List.mem_cons_of_mem b hx)
      have := ih (pairs.foldl (fun m2 p => mapSet m2 p.1 p.2) m) (acc ++ [b]) hrest
      simp only [runBatches, hob]
      exact ⟨by rw [this.1]; simp, this.2⟩

/-- C2, amended.  The renderer-side `refreshBaseUrls` collects the ids
of every item of the sequence with no per-item staleness check (the
50-minute threshold appears only as the period of the refresh timer and
in the unused `isBaseUrlExpired` helper), so a call refreshes all
supplied items regardless of locator age.  Each id is covered by
exactly one batch — the issued batches concatenate back to the full id
list — and an item found in the returned url map gets the new locator
with its issuance timestamp reset to the call time, as the t = 51 min
single-item scenario shows concretely. -/
theorem url_refresh_amended (items : List CachedMediaItem)
    (outcome : List String → BatchOutcome) (now : Nat)
    (m : List (String × String)) (item : CachedMediaItem) (u : String) :
    (batchesOf (slideshowRefreshIds items)).flatten = slideshowRefreshIds items ∧
    ((∀ b ∈ batchesOf (slideshowRefreshIds items), outcome b ≠ .thrown) →
      (refreshBaseUrlsRun outcome (slideshowRefreshIds items)).issued.flatten =
        slideshowRefreshIds items) ∧
    (mapGet m item.id = some u → refreshItemUpdate m now item = ⟨item.id, u, now⟩) ∧
    (refreshAndUpdate (fun _ => .results [("A", "u2")]) ["A"] (51 * 60 * 1000)
        [⟨"A", "u", 0⟩]).1 = [⟨"A", "u2", 51 * 60 * 1000⟩] := by
  refine ⟨batchesOf_flatten _, ?_, ?_, by decide⟩
  · intro h
    have := (runBatches_ok outcome (batchesOf (slideshowRefreshIds items)) [] [] h).1
    unfold refreshBaseUrlsRun
    rw [this]
    simpa using batchesOf_flatten (slideshowRefreshIds items)
  · intro h
    cases item with
    | mk id baseUrl cachedAt => simp [refreshItemUpdate, h]

/-- C2 amended, witnessed on the single-item scenario. -/
theorem url_refresh_witness :
    (batchesOf (slideshowRefreshIds [⟨"A", "u", 0⟩])).flatten =
      slideshowRefreshIds [⟨"A", "u", 0⟩] ∧
    (refreshBaseUrlsRun (fun _ => .results [("A", "u2")])
        (slideshowRefreshIds [⟨"A", "u", 0⟩])).issued.flatten =
      slideshowRefreshIds [⟨"A", "u", 0⟩] ∧
    refreshItemUpdate [("A", "u2")] (51 * 60 * 1000) ⟨"A", "u", 0⟩ =
      ⟨"A", "u2", 51 * 60 * 1000⟩ ∧
    (refreshAndUpdate (fun _ => .results [("A", "u2")]) ["A"] (51 * 60 * 1000)
        [⟨"A", "u", 0⟩]).1 = [⟨"A", "u2", 51 * 60 * 1000⟩] := by
  have h := url_refresh_amended [⟨"A", "u", 0⟩] (fun _ => .results [("A", "u2")])
    (51 * 60 * 1000) [("A", "u2")] ⟨"A", "u", 0⟩ "u2"
  exact ⟨h.1, h.2.1 (fun b _ => by decide), h.2.2.1 (by decide), h.2.2.2⟩

/-- C2, counterexample to the claim as stated: for an item whose
locator was issued at t = 0, a call of the renderer-side refresh at
t = 49 min — an age of 2 940 000 ms, not exceeding the 50-minute
threshold `BASE_URL_TTL` — still issues a batch request containing that
item's id, whereas the claim says no refresh is issued for it. -/
theorem url_refresh_counterexample :
    (refreshBaseUrlsRun (fun _ => .results [("A", "u2")])
        (slideshowRefreshIds [⟨"A", "u", 0⟩])).issued = [["A"]] ∧
    49 * 60 * 1000 - 0 ≤ BASE_URL_TTL := by
  decide

/-- C3, amended.  A batch whose HTTP response merely carries no
`mediaItemResults` (for example an error-status body) does not abort
the remaining batches, and any item absent from the accumulated url map
keeps its previous locator; but a batch whose fetch throws aborts the
whole cycle — the exception propagates, the remaining batches are not
issued, and the store is left untouched, every item keeping its
previous locator. -/
theorem refresh_partial_failure_amended (outcome : List String → BatchOutcome)
    (ids : List String) (now : Nat) (items : List CachedMediaItem) :
    ((∀ b ∈ batchesOf ids, outcome b ≠ .thrown) →
      (refreshBaseUrlsRun outcome ids).issued = batchesOf ids ∧
      ∃ m, (refreshBaseUrlsRun outcome ids).result = .ok m) ∧
    (∀ (m : List (String × String)) (item : CachedMediaItem),
      mapGet m item.id = none → refreshItemUpdate m now item = item) ∧
    ((refreshBaseUrlsRun outcome ids).result = .error () →
      (refreshAndUpdate outcome ids now items).1 = items) := by
  refine ⟨?_, ?_, ?_⟩
  · intro h
    have := runBatches_ok outcome (batchesOf ids) [] [] h
    exact ⟨by simpa using this.1, this.2⟩
  · intro m item h
    simp [refreshItemUpdate, h]
  · intro h
    simp [refreshAndUpdate, h]

/-- C3 amended, witnessed on a two-batch id list whose first batch
throws. -/
theorem refresh_partial_failure_witness :
    ((refreshBaseUrlsRun (fun _ => .results []) c3Ids).issued = batchesOf c3Ids ∧
      ∃ m, (refreshBaseUrlsRun (fun _ => .results []) c3Ids).result = .ok m) ∧
    refreshItemUpdate [] 0 ⟨"A", "u", 0⟩ = ⟨"A", "u", 0⟩ ∧
    (refreshAndUpdate (fun _ => .thrown) c3Ids 0 [⟨"A", "u", 0⟩]).1 = [⟨"A", "u", 0⟩] := by
  refine ⟨(refresh_partial_failure_amended (fun _ => .results []) c3Ids 0 []).1
      (fun b _ => by decide),
    (refresh_partial_failure_amended (fun _ => .results []) c3Ids 0 []).2.1 []
      ⟨"A", "u", 0⟩ (by decide),
    (refresh_partial_failure_amended (fun _ => .thrown) c3Ids 0 [⟨"A", "u", 0⟩]).2.2
      (by decide)⟩

/-- C3, counterexample to the claim as stated: with 51 ids (two batches
of 50 and 1) and a fetch that throws, only the first batch request is
ever issued — the thrown batch aborts the cycle and the second batch is
not issued, whereas the claim says the remaining batches still are. -/
theorem refresh_partial_failure_counterexample :
    (refreshBaseUrlsRun (fun _ => .thrown) c3Ids).issued = [List.replicate 50 "x"] ∧
    batchesOf c3Ids = [List.replicate 50 "x", ["x"]] := by
  decide

/-! ## Schedule check -/

/-- C6, amended.  When the schedule gate reads false while the
slideshow is running and the last recorded gate state was true,
`checkSchedule` sends the `schedule:state-changed false` stop event
twice in that run — once from the running-but-not-scheduled branch and
once from the state-change branch — and records the new gate state; the
renderer then stops the slideshow.  A later run while the slideshow is
stopped and the recorded state is already false sends nothing. -/
theorem schedule_signal_amended (timeGrid : List (List Bool)) (dayIndex hourIndex : Nat)
    (s : ScheduleCheckState) (hGrid : gridLookup timeGrid dayIndex hourIndex = false) :
    (s.isSlideshowRunning = true → s.lastScheduleState = some true →
      checkSchedule true timeGrid dayIndex hourIndex s =
        ({ s with lastScheduleState := some false }, [false, false])) ∧
    (s.isSlideshowRunning = false → s.lastScheduleState = some false →
      checkSchedule true timeGrid dayIndex hourIndex s = (s, [])) := by
  constructor
  · intro hRun hLast
    simp [checkSchedule, hGrid, hRun, hLast]
  · intro hRun hLast
    simp [checkSchedule, hGrid, hRun, hLast]

/-- C6 amended, witnessed on a one-cell grid. -/
theorem schedule_signal_witness :
    checkSchedule true [[false]] 0 0 ⟨some true, true⟩ =
      (⟨some false, true⟩, [false, false]) ∧
    checkSchedule true [[false]] 0 0 ⟨some false, false⟩ = (⟨some false, false⟩, []) :=
  ⟨(schedule_signal_amended [[false]] 0 0 ⟨some true, true⟩ rfl).1 rfl rfl,
   (schedule_signal_amended [[false]] 0 0 ⟨some false, false⟩ rfl).2 rfl rfl⟩

/-- C6, counterexample to the claim as stated: on the true-to-false
gate transition while the slideshow is running, `checkSchedule` sends
the stop payload `false` twice (the running check fires in addition to
the state-change check), not exactly once as the claim says. -/
theorem schedule_signal_counterexample :
    (checkSchedule true [[false]] 0 0 ⟨some true, true⟩).2 = [false, false] ∧
    (checkSchedule true [[false]] 0 0 ⟨some true, true⟩).2.length ≠ 1 := by
  decide

/-! ## Playback helper lemmas -/

theorem completedNext_loadedState (L : List MediaItem) (p : Bool) (i : Nat)
    (hL : L.length ≠ 0) :
    completedNext (loadedState L i p) = loadedState L ((i + 1) % L.length) p := by
  simp [completedNext, handleEvent, transitionTo, settleTransition, loadedState, hL]

theorem completedNext_iterate (L : List MediaItem) (p : Bool) (hL : L.length ≠ 0)
    (i : Nat) (hi : i < L.length) :
    ∀ k, completedNext^[k] (loadedState L i p) = loadedState L ((i + k) % L.length) p := by
  intro k
  induction k with
  | zero => simp [Nat.mod_eq_of_lt hi]
  | succ k ih =>
    rw [Function.iterate_succ_apply', ih, completedNext_loadedState L p _ hL,
      Nat.mod_add_mod, Nat.add_assoc]

/-- C7: at most one advance is ever in flight.  Any advance trigger —
timer fire, video end, load timeout, user next or previous — arriving
while a transition is in flight leaves the state untouched (dropped,
not queued); and from a showing, playing state a video-end trigger
followed by a timer-fire trigger before the transition completes
produces exactly one advance, to `(index + 1) mod length`. -/
theorem advance_debounce (s : SlideshowState) :
    (s.isTransitioning = true → ∀ e, handleEvent s e = s) ∧
    (s.isTransitioning = false → s.isPlaying = true → s.mediaItems.length ≠ 0 →
      handleEvent (handleEvent s .videoEnd) .timerFire = handleEvent s .videoEnd ∧
      (handleEvent s .videoEnd).isTransitioning = true ∧
      (settleTransition (handleEvent s .videoEnd)).currentIndex =
        (s.currentIndex + 1) % s.mediaItems.length) := by
  constructor
  · intro h e
    cases e <;> simp [handleEvent, transitionTo, h]
  · intro hT hP hL
    have h1 : handleEvent s .videoEnd = { s with
        isTransitioning := true
        previousIndex := some s.currentIndex
        pendingIndex := some ((s.currentIndex + 1) % s.mediaItems.length) } := by
      simp [handleEvent, transitionTo, hT, hP, hL]
    rw [h1]
    exact ⟨by simp [handleEvent], rfl, by simp [settleTransition]⟩

/-- C7, witnessed on a one-item slideshow: a trigger during a
transition is a no-op, and a video-end of the showing state advances
once. -/
theorem advance_debounce_witness :
    handleEvent demoTransitioning .userNext = demoTransitioning ∧
    (settleTransition (handleEvent demoShowing .videoEnd)).currentIndex = (0 + 1) % 1 :=
  ⟨(advance_debounce demoTransitioning).1 rfl .userNext,
   ((advance_debounce demoShowing).2 rfl rfl (by decide)).2.2⟩

/-- C8: cursor wrap-around.  Whatever sort order `loadMediaItems`
applied (latest, oldest, random — the latter abstracted as an arbitrary
permutation — or the unsorted default), the loaded sequence keeps the
original length L, L completed `next()` advances return the cursor to
its starting index, and the cursor stays below L throughout. -/
theorem cursor_wraparound (order : PhotoOrder) (shuffle : List MediaItem → List MediaItem)
    (items : List MediaItem) (start : Nat) (playing : Bool)
    (hshuffle : ∀ l, List.Perm (shuffle l) l) (hstart : start < items.length) :
    (sortItems order shuffle items).length = items.length ∧
    (completedNext^[items.length]
      (loadedState (sortItems order shuffle items) start playing)).currentIndex = start ∧
    ∀ k, (completedNext^[k]
      (loadedState (sortItems order shuffle items) start playing)).currentIndex <
        items.length := by
  have hlen : (sortItems order shuffle items).length = items.length := by
    cases order with
    | latest => exact (List.perm_insertionSort _ items).length_eq
    | oldest => exact (List.perm_insertionSort _ items).length_eq
    | random => exact (hshuffle items).length_eq
    | unsorted => rfl
  have hL : (sortItems order shuffle items).length ≠ 0 := by omega
  have hstart2 : start < (sortItems order shuffle items).length := by omega
  have hiter := completedNext_iterate (sortItems order shuffle items) playing hL start hstart2
  refine ⟨hlen, ?_, ?_⟩
  · rw [hiter items.length]
    simp only [loadedState]
    rw [hlen, Nat.add_mod_right]
    exact Nat.mod_eq_of_lt hstart
  · intro k
    rw [hiter k]
    simp only [loadedState]
    rw [hlen]
    exact Nat.mod_lt _ (by omega)

/-- C8, witnessed on a one-item sequence loaded with the random
order realized by the identity permutation. -/
theorem cursor_wraparound_witness :
    (sortItems .random id [demoItem]).length = [demoItem].length ∧
    (completedNext^[[demoItem].length]
      (loadedState (sortItems .random id [demoItem]) 0 true)).currentIndex = 0 ∧
    (completedNext^[5]
      (loadedState (sortItems .random id [demoItem]) 0 true)).currentIndex <
      [demoItem].length := by
  have h := cursor_wraparound .random id [demoItem] 0 true (fun l => List.Perm.refl l)
    (by decide)
  exact ⟨h.1, h.2.1, h.2.2 5⟩

/-- C9: pause asymmetry.  With playback paused and no transition in
flight, a video-end event for the current item does not advance (its
handler is guarded on `isPlaying`), while a load-timeout event still
advances (its handler only requires a non-empty sequence); whenever
either event does advance, the cursor moves to
`(index + 1) mod length`. -/
theorem pause_asymmetry (s : SlideshowState) (hT : s.isTransitioning = false)
    (hL : s.mediaItems.length ≠ 0) :
    (s.isPlaying = false → handleEvent s .videoEnd = s) ∧
    ((handleEvent s .loadTimeout).isTransitioning = true ∧
      (settleTransition (handleEvent s .loadTimeout)).currentIndex =
        (s.currentIndex + 1) % s.mediaItems.length) ∧
    (s.isPlaying = true →
      (settleTransition (handleEvent s .videoEnd)).currentIndex =
        (s.currentIndex + 1) % s.mediaItems.length) := by
  refine ⟨?_, ⟨?_, ?_⟩, ?_⟩
  · intro hP
    simp [handleEvent, hP]
  · simp [handleEvent, transitionTo, hT, hL]
  · simp [handleEvent, transitionTo, settleTransition, hT, hL]
  · intro hP
    simp [handleEvent, transitionTo, settleTransition, hT, hP, hL]

/-- C9, witnessed on a paused one-item slideshow. -/
theorem pause_asymmetry_witness :
    handleEvent demoPaused .videoEnd = demoPaused ∧
    (settleTransition (handleEvent demoPaused .loadTimeout)).currentIndex = (0 + 1) % 1 :=
  ⟨(pause_asymmetry demoPaused rfl (by decide)).1 rfl,
   (pause_asymmetry demoPaused rfl (by decide)).2.1.2⟩

/-! ## Picked-media merge -/

/-- C10: merging newly picked media keeps the existing items unchanged
as a prefix, every element of the merge comes from the existing list or
is a new item whose id was not yet present, and when both the existing
list and the new batch have pairwise-distinct ids, so does the merged
list. -/
theorem picked_merge_nodup (existing newItems : List PickedItem)
    (h1 : (existing.map (fun it => it.id)).Nodup)
    (h2 : (newItems.map (fun it => it.id)).Nodup) :
    existing <+: mergePickedMedia existing newItems ∧
    (∀ it ∈ mergePickedMedia existing newItems,
      it ∈ existing ∨ (it ∈ newItems ∧ it.id ∉ existing.map (fun x => x.id))) ∧
    ((mergePickedMedia existing newItems).map (fun it => it.id)).Nodup := by
  simp only [mergePickedMedia]
  refine ⟨List.prefix_append _ _, ?_, ?_⟩
  · intro it hit
    rcases List.mem_append.mp hit with h | h
    · exact Or.inl h
    · have hf := List.mem_filter.mp h
      refine Or.inr ⟨hf.1, ?_⟩
      have hb := hf.2
      simpa using hb
  · rw [List.map_append, List.nodup_append]
    refine ⟨h1, ?_, ?_⟩
    · exact List.Nodup.sublist ((List.filter_sublist _).map _) h2
    · intro a ha hafil
      rcases List.mem_map.mp hafil with ⟨it, hitmem, rfl⟩
      have hnm : it.id ∉ existing.map (fun x => x.id) := by
        simpa using (List.mem_filter.mp hitmem).2
      exact hnm ha

/-- C10, witnessed on a merge where one of the two new items collides
with the existing id. -/
theorem picked_merge_witness :
    demoExisting <+: mergePickedMedia demoExisting demoNew ∧
    ((mergePickedMedia demoExisting demoNew).map (fun it => it.id)).Nodup := by
  have h := picked_merge_nodup demoExisting demoNew (by decide) (by decide)
  exact ⟨h.1, h.2.2⟩

end PhotoSlide
